import Mathlib

/-!
Verification of the ClickUp webhook receiver (api/clickup-webhook.js, latest
revision: the variant with the entity dropdown mapping, the 409-tolerant
attach, and the task-hours fields).  The JavaScript handler is shallowly
embedded below: machine words are `Nat` reduced mod 2^32, the raw request
body is a `String`, the JSON runtime (`JSON.parse`) and the HTTP transport
(`fetch`) are supplied as explicit parameters of an `Env`, and every outbound
remote call the handler issues is recorded in order.
-/

namespace ClickupWebhook

/-! ## Bytes and 32-bit words -/

/-- Reduce to a 32-bit word. -/
def w32 (n : Nat) : Nat := n % 4294967296

/-- Right rotation of a 32-bit word. -/
def rotr (n x : Nat) : Nat := w32 ((x >>> n) ||| (x <<< (32 - n)))

/-- Bitwise complement of a 32-bit word. -/
def bnot32 (x : Nat) : Nat := 4294967295 ^^^ x

/-- UTF-8 encoding of one character (RFC 3629), as bytes. -/
def utf8EncodeChar (c : Char) : List Nat :=
  let n := c.toNat
  if n < 128 then [n]
  else if n < 2048 then [192 ||| (n >>> 6), 128 ||| (n &&& 63)]
  else if n < 65536 then
    [224 ||| (n >>> 12), 128 ||| ((n >>> 6) &&& 63), 128 ||| (n &&& 63)]
  else
    [240 ||| (n >>> 18), 128 ||| ((n >>> 12) &&& 63),
     128 ||| ((n >>> 6) &&& 63), 128 ||| (n &&& 63)]

/-- UTF-8 bytes of a string — what `crypto.createHmac(...).update(raw)` hashes
when handed a JavaScript string. -/
def utf8Bytes (s : String) : List Nat := (s.data.map utf8EncodeChar).flatten

/-! ## SHA-256 (FIPS 180-4) -/

/-- `Ch(x,y,z)`. -/
def shaCh (x y z : Nat) : Nat := (x &&& y) ^^^ (bnot32 x &&& z)

/-- `Maj(x,y,z)`. -/
def shaMaj (x y z : Nat) : Nat := (x &&& y) ^^^ (x &&& z) ^^^ (y &&& z)

/-- Upper-case sigma 0. -/
def bsig0 (x : Nat) : Nat := rotr 2 x ^^^ rotr 13 x ^^^ rotr 22 x

/-- Upper-case sigma 1. -/
def bsig1 (x : Nat) : Nat := rotr 6 x ^^^ rotr 11 x ^^^ rotr 25 x

/-- Lower-case sigma 0. -/
def ssig0 (x : Nat) : Nat := rotr 7 x ^^^ rotr 18 x ^^^ (x >>> 3)

/-- Lower-case sigma 1. -/
def ssig1 (x : Nat) : Nat := rotr 17 x ^^^ rotr 19 x ^^^ (x >>> 10)

/-- The 64 SHA-256 round constants. -/
def shaK : List Nat :=
  [1116352408, 1899447441, 3049323471, 3921009573, 961987163,
   1508970993, 2453635748, 2870763221, 3624381080, 310598401,
   607225278, 1426881987, 1925078388, 2162078206, 2614888103,
   3248222580, 3835390401, 4022224774, 264347078, 604807628,
   770255983, 1249150122, 1555081692, 1996064986, 2554220882,
   2821834349, 2952996808, 3210313671, 3336571891, 3584528711,
   113926993, 338241895, 666307205, 773529912, 1294757372,
   1396182291, 1695183700, 1986661051, 2177026350, 2456956037,
   2730485921, 2820302411, 3259730800, 3345764771, 3516065817,
   3600352804, 4094571909, 275423344, 430227734, 506948616,
   659060556, 883997877, 958139571, 1322822218, 1537002063,
   1747873779, 1955562222, 2024104815, 2227730452, 2361852424,
   2428436474, 2756734187, 3204031479, 3329325298]

/-- The eight SHA-256 initial hash values. -/
def shaH0 : List Nat :=
  [1779033703, 3144134277, 1013904242, 2773480762,
   1359893119, 2600822924, 528734635, 1541459225]

/-- 8-byte big-endian serialization of a length (in bits). -/
def be64 (n : Nat) : List Nat :=
  [(n >>> 56) % 256, (n >>> 48) % 256, (n >>> 40) % 256, (n >>> 32) % 256,
   (n >>> 24) % 256, (n >>> 16) % 256, (n >>> 8) % 256, n % 256]

/-- SHA-256 padding: append `0x80`, zero bytes to 56 mod 64, then the bit
length big-endian. -/
def sha256Pad (msg : List Nat) : List Nat :=
  let l := msg.length
  let zeros := (120 - (l + 1) % 64) % 64
  msg ++ 128 :: List.replicate zeros 0 ++ be64 (8 * l)

/-- Big-endian 32-bit words of a byte list (length a multiple of 4). -/
def bytesToWords : List Nat → List Nat
  | b0 :: b1 :: b2 :: b3 :: rest =>
      (b0 * 16777216 + b1 * 65536 + b2 * 256 + b3) :: bytesToWords rest
  | _ => []

/-- Extend a 16-word block by `t` message-schedule words. -/
def scheduleExt (w : List Nat) : Nat → List Nat
  | 0 => w
  | t + 1 =>
    let prev := scheduleExt w t
    let l := prev.length
    prev ++ [w32 (ssig1 (prev.getD (l - 2) 0) + prev.getD (l - 7) 0 +
                  ssig0 (prev.getD (l - 15) 0) + prev.getD (l - 16) 0)]

/-- One SHA-256 round on the working variables. -/
def roundStep (s : Nat × Nat × Nat × Nat × Nat × Nat × Nat × Nat) (kw : Nat × Nat) :
    Nat × Nat × Nat × Nat × Nat × Nat × Nat × Nat :=
  let (a, b, c, d, e, f, g, h) := s
  let t1 := w32 (h + bsig1 e + shaCh e f g + kw.1 + kw.2)
  let t2 := w32 (bsig0 a + shaMaj a b c)
  (w32 (t1 + t2), a, b, c, w32 (d + t1), e, f, g)

/-- Compress one 64-byte block (given as 16 words) into the state. -/
def compressBlock (st : List Nat) (block : List Nat) : List Nat :=
  let w := scheduleExt block 48
  let s0 := (st.getD 0 0, st.getD 1 0, st.getD 2 0, st.getD 3 0,
             st.getD 4 0, st.getD 5 0, st.getD 6 0, st.getD 7 0)
  let (a, b, c, d, e, f, g, h) := (shaK.zip w).foldl roundStep s0
  [w32 (st.getD 0 0 + a), w32 (st.getD 1 0 + b), w32 (st.getD 2 0 + c),
   w32 (st.getD 3 0 + d), w32 (st.getD 4 0 + e), w32 (st.getD 5 0 + f),
   w32 (st.getD 6 0 + g), w32 (st.getD 7 0 + h)]

/-- Fold `k` successive 64-byte blocks of `bytes` into the state. -/
def sha256Blocks (st : List Nat) (bytes : List Nat) : Nat → List Nat
  | 0 => st
  | k + 1 => sha256Blocks (compressBlock st (bytesToWords (bytes.take 64))) (bytes.drop 64) k

/-- Big-endian bytes of a word list. -/
def wordsToBytes (ws : List Nat) : List Nat :=
  (ws.map (fun x => [(x >>> 24) % 256, (x >>> 16) % 256, (x >>> 8) % 256, x % 256])).flatten

/-- SHA-256 digest (32 bytes) of a byte list. -/
def sha256Bytes (msg : List Nat) : List Nat :=
  let p := sha256Pad msg
  wordsToBytes (sha256Blocks shaH0 p (p.length / 64))

/-! ## HMAC-SHA256 (RFC 2104 / FIPS 198-1) and hex encoding -/

/-- HMAC-SHA256 with the standard 64-byte block, ipad `0x36`, opad `0x5c`. -/
def hmacSha256 (key msg : List Nat) : List Nat :=
  let k0 := if 64 < key.length then sha256Bytes key else key
  let kp := k0 ++ List.replicate (64 - k0.length) 0
  sha256Bytes ((kp.map (fun b => b ^^^ 92)) ++
    sha256Bytes ((kp.map (fun b => b ^^^ 54)) ++ msg))

/-- The sixteen lowercase hex digits, `0123456789abcdef` — core's
`Nat.digitChar` on 0 through 15 is exactly that alphabet. -/
def hexDigits : List Char := (List.range 16).map Nat.digitChar

/-- Two lowercase hex characters of one byte. -/
def byteHexLower (b : Nat) : List Char :=
  [Nat.digitChar (b / 16 % 16), Nat.digitChar (b % 16)]

/-- Lowercase hex encoding of a byte list — `digest("hex")` in node. -/
def bytesToHexLower (bs : List Nat) : String := ⟨(bs.map byteHexLower).flatten⟩

/-- `crypto.createHmac("sha256", secret).update(raw).digest("hex")` for string
inputs: lowercase hex of HMAC-SHA256 over the UTF-8 bytes. -/
def hmacSha256Hex (secret raw : String) : String :=
  bytesToHexLower (hmacSha256 (utf8Bytes secret) (utf8Bytes raw))

/-! ## JavaScript values

`JValue` models the values `JSON.parse` can produce (numbers restricted to
integers — every identifier in the webhook payloads is a string or an integral
number).  `truthy`, `jsToString` and the `||` chain mirror the JavaScript
coercions the handler relies on. -/

/-- A parsed JSON value. -/
inductive JValue where
  | null : JValue
  | bool : Bool → JValue
  | num : Int → JValue
  | str : String → JValue
  | arr : List JValue → JValue
  | obj : List (String × JValue) → JValue

/-- JavaScript truthiness of a value. -/
def truthy : JValue → Bool
  | .null => false
  | .bool b => b
  | .num n => n != 0
  | .str s => s != ""
  | .arr _ => true
  | .obj _ => true

/-- Truthiness with `undefined` (`none`) falsy. -/
def truthyO : Option JValue → Bool
  | none => false
  | some v => truthy v

/-- Property access `v?.k`: `undefined` unless `v` is an object with field `k`. -/
def jGet : Option JValue → String → Option JValue
  | some (.obj fields), k => fields.lookup k
  | _, _ => none

mutual

/-- JavaScript `String(v)` for our value fragment. -/
def jsToString : JValue → String
  | .null => "null"
  | .bool b => if b then "true" else "false"
  | .num n => toString n
  | .str s => s
  | .arr xs => jsArrToString xs
  | .obj _ => "[object Object]"

/-- `Array.prototype.toString`: elements joined with commas. -/
def jsArrToString : List JValue → String
  | [] => ""
  | [x] => jsElemToString x
  | x :: xs => jsElemToString x ++ "," ++ jsArrToString xs

/-- An array element in a join: `null` prints empty. -/
def jsElemToString : JValue → String
  | .null => ""
  | .bool b => if b then "true" else "false"
  | .num n => toString n
  | .str s => s
  | .arr xs => jsArrToString xs
  | .obj _ => "[object Object]"

end

/-- `String(v)` where `v` may be `undefined`. -/
def jsToStringO : Option JValue → String
  | none => "undefined"
  | some v => jsToString v

/-- JavaScript `a || b`: `a` when truthy, else `b`. -/
def jsOr (a b : Option JValue) : Option JValue :=
  if truthyO a then a else b

/-- Strict equality `v === "taskCreated"`. -/
def eqTaskCreated : Option JValue → Bool
  | some (.str s) => s == "taskCreated"
  | _ => false

/-! ## URL and JSON string building -/

/-- Characters `encodeURIComponent` leaves unescaped. -/
def encUnreserved (c : Char) : Bool :=
  let n := c.toNat
  (65 ≤ n && n ≤ 90) || (97 ≤ n && n ≤ 122) || (48 ≤ n && n ≤ 57) ||
  n == 45 || n == 95 || n == 46 || n == 33 || n == 126 || n == 42 ||
  n == 39 || n == 40 || n == 41

/-- One uppercase hex digit: digits for 0-9, then `A` through `F`. -/
def hexUpperChar (n : Nat) : Char :=
  if n % 16 < 10 then Nat.digitChar (n % 16) else Char.ofNat (55 + n % 16)

/-- `%XX` escape of one byte, uppercase. -/
def pctEscape (b : Nat) : List Char :=
  ['%', hexUpperChar (b / 16), hexUpperChar b]

/-- `encodeURIComponent`: unreserved characters kept, all others UTF-8
percent-encoded. -/
def encodeURIComponent (s : String) : String :=
  ⟨(s.data.map fun c =>
      if encUnreserved c then [c] else ((utf8EncodeChar c).map pctEscape).flatten).flatten⟩

/-- JSON escape of one character, as `JSON.stringify` performs it. -/
def jsonEscapeChar (c : Char) : List Char :=
  let q := Char.ofNat 34
  let bs := Char.ofNat 92
  if c = q then [bs, q]
  else if c = bs then [bs, bs]
  else if c.toNat == 8 then [bs, Char.ofNat 98]
  else if c.toNat == 9 then [bs, Char.ofNat 116]
  else if c.toNat == 10 then [bs, Char.ofNat 110]
  else if c.toNat == 12 then [bs, Char.ofNat 102]
  else if c.toNat == 13 then [bs, Char.ofNat 114]
  else if c.toNat < 32 then
    [bs, Char.ofNat 117, '0', '0', Nat.digitChar (c.toNat / 16 % 16),
     Nat.digitChar (c.toNat % 16)]
  else [c]

/-- `JSON.stringify` of a string value. -/
def jsonStr (s : String) : String :=
  ⟨Char.ofNat 34 :: (s.data.map jsonEscapeChar).flatten ++ [Char.ofNat 34]⟩

/-! ## Configuration

All configuration is read at process start.  An `Option String` field is
`none` when the corresponding env var is unset OR empty: the source only ever
tests these values with JavaScript falsiness (`!SECRET`, `!TOKEN`,
`TARGET_LIST_ID || null`), which collapses the two, so `some s` always
carries a non-empty `s` in any state reachable from a real environment.
Plain `String` fields are `process.env.X || "literal"`, hence always truthy.
The two tables (`LIST_TO_ENTITY`, `ENTITY_OPT`) are kept as association
lists; `baseConfig` fills in the source's fallback literals. -/

structure Config where
  secret : Option String
  token : Option String
  jobTrackerListId : String
  dateFieldId : String
  targetListId : Option String
  intlocalListId : String
  listToEntity : List (String × String)
  entityOpt : List (String × String)
  entityFieldId : String

/-- The `LIST_TO_ENTITY` map with its fallback list ids. -/
def listToEntityDefault : List (String × String) :=
  [("901205280473", "SASOL SECUNDA"),
   ("901207177834", "SASOL SECUNDA"),
   ("901207526223", "VAAL"),
   ("901211448490", "VAAL"),
   ("901208363216", "MPUMALANGA"),
   ("901208363209", "MPUMALANGA"),
   ("901211315230", "SSSA"),
   ("901207432882", "TCO"),
   ("901213147743", "NCOC")]

/-- The `ENTITY_OPT` table with its fallback option ids. -/
def entityOptDefault : List (String × String) :=
  [("SASOL SECUNDA", "db79f2a8-c910-4b3b-9139-f253f95c0e33"),
   ("VAAL", "6625e76c-5ea0-4830-899b-af45e26c1036"),
   ("TCO", "26bfe07f-d208-4057-a84e-bc22b0e7bade"),
   ("MPUMALANGA", "2ed7499d-47b9-4474-91fc-eebe9396683d"),
   ("SSSA", "9ff0171b-62f7-4218-a962-0c4a45f5abcd"),
   ("NCOC", "4e4f5797-d3ab-44b6-84d9-f859baa14c26")]

/-- The configuration with every fallback literal of the source and no
global target-list filter. -/
def baseConfig (secret token : Option String) : Config :=
  { secret := secret
    token := token
    jobTrackerListId := "901211501276"
    dateFieldId := "5497bac6-d964-434e-af6e-706995976c07"
    targetListId := none
    intlocalListId := "901208400956"
    listToEntity := listToEntityDefault
    entityOpt := entityOptDefault
    entityFieldId := "af029e47-83b3-4172-9858-2402b111f5d6" }

/-- `TASK_HOURS_ENG_FIELD_ID` (hardcoded, no env override). -/
def TASK_HOURS_ENG_FIELD_ID : String := "27043ad1-2437-4201-8d89-a4a306ff9c5b"

/-- `TASK_HOURS_DRFT_FIELD_ID` (hardcoded, no env override). -/
def TASK_HOURS_DRFT_FIELD_ID : String := "44bed523-6bfd-448e-be47-3c5dd4f84cf4"

/-- `DEFAULT_HOURS_VALUE` (hardcoded). -/
def DEFAULT_HOURS_VALUE : String := "STD:0-OT1:0-OT2:0"

/-- `ATTACH_SOURCE_LIST_IDS`: the keys of `LIST_TO_ENTITY` plus the
International Local Manufacture list. -/
def attachSourceListIds (cfg : Config) : List String :=
  cfg.listToEntity.map Prod.fst ++ [cfg.intlocalListId]

/-! ## Requests, remote calls and responses -/

/-- One inbound HTTP request: the method, the `X-Signature` header (absent
allowed) and the raw body captured before parsing. -/
structure Request where
  method : String
  xSignature : Option String
  rawBody : String

/-- One outbound call through the `cu` helper: API path suffix, HTTP method,
and the JSON body string when present. -/
structure CuCall where
  path : String
  httpMethod : String
  reqBody : Option String
deriving DecidableEq

/-- What the transport answers: an HTTP status and the response text. -/
structure HttpResp where
  status : Nat
  text : String

/-- The externals of one request: `JSON.parse`, `fetch` and `Date.now()`. -/
structure Env where
  jsonParse : String → Option JValue
  oracle : CuCall → HttpResp
  now : Nat

/-- The classified result the `cu` helper returns. -/
structure CuResult where
  ok : Bool
  status : Nat
  json : Option JValue
  text : String

/-- The JSON bodies the handler responds with. -/
inductive RespBody where
  | err : String → RespBody
  | okPlain : RespBody
  | skipped : RespBody
  | summary : Option JValue → Option JValue → Bool → Bool → Bool → Option String → RespBody

/-- Everything one request produces: status, response body, the outbound
calls issued in order, and the log lines emitted. -/
structure HandlerOut where
  status : Nat
  respBody : RespBody
  calls : List CuCall
  logs : List String

/-- Pure part of `cu` past the token check: classify the transport's answer;
2xx parses the body (parse failure tolerated), anything else is `ok: false`. -/
def cuResp (env : Env) (c : CuCall) : CuResult :=
  let r := env.oracle c
  if 200 ≤ r.status ∧ r.status ≤ 299 then
    ⟨true, r.status, if r.text = "" then none else env.jsonParse r.text, r.text⟩
  else ⟨false, r.status, none, r.text⟩

/-- One `cu` invocation: `throw` on a missing token — surfacing as the 500
of the handler's catch block — else record the call and continue. -/
def cuStep (cfg : Config) (env : Env) (c : CuCall) (calls : List CuCall)
    (logs : List String) (k : CuResult → List CuCall → List String → HandlerOut) :
    HandlerOut :=
  match cfg.token with
  | none => ⟨500, .err "Missing CLICKUP_TOKEN", calls, logs⟩
  | some _ => k (cuResp env c) (calls ++ [c]) logs

/-- The task-detail lookup call of the list resolver. -/
def taskLookupCall (tid : String) : CuCall :=
  ⟨"/task/" ++ encodeURIComponent tid, "GET", none⟩

/-- The attach-to-Job-Tracker call. -/
def attachCall (cfg : Config) (tid : String) : CuCall :=
  ⟨"/list/" ++ encodeURIComponent cfg.jobTrackerListId ++ "/task/" ++
   encodeURIComponent tid, "POST", none⟩

/-- A set-custom-field call; `valueJson` is the already-serialized value. -/
def setFieldCall (tid fieldId valueJson : String) : CuCall :=
  ⟨"/task/" ++ encodeURIComponent tid ++ "/field/" ++ encodeURIComponent fieldId,
   "POST", some ("\x7b\"value\":" ++ valueJson ++ "\x7d")⟩

/-! ## Payload extraction (part 2 of the handler) -/

/-- `body?.event`. -/
def extractEvent (body : JValue) : Option JValue := jGet (some body) "event"

/-- `body?.task_id || body?.task?.id || body?.payload?.task_id`. -/
def extractTaskId (body : JValue) : Option JValue :=
  jsOr (jGet (some body) "task_id")
    (jsOr (jGet (jGet (some body) "task") "id")
      (jGet (jGet (some body) "payload") "task_id"))

/-- `body?.list_id || body?.task?.list?.id || body?.payload?.list_id`. -/
def extractListId (body : JValue) : Option JValue :=
  jsOr (jGet (some body) "list_id")
    (jsOr (jGet (jGet (jGet (some body) "task") "list") "id")
      (jGet (jGet (some body) "payload") "list_id"))

/-- What the list resolver extracts when its lookup runs:
`ok ? json?.list?.id : undefined`. -/
def resolvedListId (env : Env) (tid : String) : Option JValue :=
  let r := cuResp env (taskLookupCall tid)
  if r.ok then jGet (jGet r.json "list") "id" else none

/-! ## The handler, stage by stage -/

/-- `true` when the optional `TARGET_LIST_ID` filter is set and the resolved
list id does not stringify to it. -/
def filterSkips (cfg : Config) (listId : Option JValue) : Bool :=
  match cfg.targetListId with
  | some t => jsToStringO listId != t
  | none => false

/-- JavaScript `x || null` on an optional string: a missing or empty entry
collapses to nothing (`LIST_TO_ENTITY.get(k) || null`, `if (optionId)`). -/
def strOptTruthy (x : Option String) : Option String :=
  match x with
  | some o => if o == "" then none else some o
  | none => none

/-- The `entityForList` binding: the entity mapped to the resolved list key. -/
def entityFor (cfg : Config) (listKey : String) : Option String :=
  strOptTruthy (cfg.listToEntity.lookup listKey)

/-- A boolean as the summary line prints it. -/
def boolStr (b : Bool) : String := if b then "true" else "false"

/-- The single summary line `slog` emits for a taskCreated run. -/
def summaryLine (tid : String) (listId : Option JValue)
    (attached dateStamped entitySet : Bool) (entityName : Option String)
    (hoursSetEng hoursSetDrft : Bool) : String :=
  "summary: event=taskCreated taskId=" ++ tid ++ " listId=" ++ jsToStringO listId ++
  " attached=" ++ boolStr attached ++ " dateStamped=" ++ boolStr dateStamped ++
  " entitySet=" ++ boolStr entitySet ++
  (match entityName with
   | some n => " entity=\"" ++ n ++ "\""
   | none => "") ++
  "hoursSetEng=" ++ boolStr hoursSetEng ++ " hoursSetDrft=" ++ boolStr hoursSetDrft

/-- Step 3 end: emit the summary log line and the 200 response carrying the
per-action booleans (`hoursSetEng`/`hoursSetDrft` go to the log only). -/
def actionsDone (tid : String) (taskId listId : Option JValue)
    (attached dateStamped entitySet : Bool) (entityName : Option String)
    (hoursSetEng hoursSetDrft : Bool) (calls : List CuCall) (logs : List String) :
    HandlerOut :=
  ⟨200, .summary taskId listId attached dateStamped entitySet entityName, calls,
   logs ++ [summaryLine tid listId attached dateStamped entitySet entityName
              hoursSetEng hoursSetDrft]⟩

/-- Step 3D: when attached, stamp the two Task-Hours fields with the default
hours value. -/
def actions3D (cfg : Config) (env : Env) (tid : String) (taskId listId : Option JValue)
    (attached dateStamped entitySet : Bool) (entityName : Option String)
    (calls : List CuCall) (logs : List String) : HandlerOut :=
  if attached then
    cuStep cfg env (setFieldCall tid TASK_HOURS_ENG_FIELD_ID (jsonStr DEFAULT_HOURS_VALUE))
      calls logs fun setEng calls logs =>
      let hoursSetEng := setEng.ok
      let logs := if setEng.ok then logs else logs ++ ["Task Hours - ENG set failed:"]
      cuStep cfg env (setFieldCall tid TASK_HOURS_DRFT_FIELD_ID (jsonStr DEFAULT_HOURS_VALUE))
        calls logs fun setDrft calls logs =>
        let hoursSetDrft := setDrft.ok
        let logs := if setDrft.ok then logs else logs ++ ["Task Hours - DRFT set failed:"]
        actionsDone tid taskId listId attached dateStamped entitySet entityName
          hoursSetEng hoursSetDrft calls logs
  else
    actionsDone tid taskId listId attached dateStamped entitySet entityName
      false false calls logs

/-- Step 3C: set the Entity dropdown only when a mapping exists; a missing
option id logs a defect and issues no call. -/
def actions3C (cfg : Config) (env : Env) (tid : String) (taskId listId : Option JValue)
    (entityForList : Option String) (attached dateStamped : Bool)
    (calls : List CuCall) (logs : List String) : HandlerOut :=
  match entityForList with
  | some ename =>
    match strOptTruthy (cfg.entityOpt.lookup ename) with
    | some optionId =>
      cuStep cfg env (setFieldCall tid cfg.entityFieldId (jsonStr optionId))
        calls logs fun setE calls logs =>
        let entitySet := setE.ok
        let logs := if setE.ok then logs else logs ++ ["Entity set failed:"]
        actions3D cfg env tid taskId listId attached dateStamped entitySet
          (some ename) calls logs
    | none =>
      actions3D cfg env tid taskId listId attached dateStamped false none calls
        (logs ++ ["Missing option ID for entity: " ++ ename])
  | none =>
    actions3D cfg env tid taskId listId attached dateStamped false none calls logs

/-- Step 3B: stamp the generic Date field with `Date.now()` whenever the date
field id is configured. -/
def actions3B (cfg : Config) (env : Env) (tid : String) (taskId listId : Option JValue)
    (entityForList : Option String) (attached : Bool)
    (calls : List CuCall) (logs : List String) : HandlerOut :=
  if cfg.dateFieldId != "" then
    cuStep cfg env (setFieldCall tid cfg.dateFieldId (toString env.now))
      calls logs fun stamp calls logs =>
      let dateStamped := stamp.ok
      let logs := if stamp.ok then logs else logs ++ ["Date field set failed:"]
      actions3C cfg env tid taskId listId entityForList attached dateStamped calls logs
  else
    actions3C cfg env tid taskId listId entityForList attached false calls logs

/-- Step 3A and the whole action block of a `taskCreated` event: attach when
the list key is in the allow-set, tolerating 409 as already-attached. -/
def actions (cfg : Config) (env : Env) (taskId listId : Option JValue)
    (calls : List CuCall) (logs : List String) : HandlerOut :=
  if (attachSourceListIds cfg).contains (jsToStringO listId) then
    cuStep cfg env (attachCall cfg (jsToStringO taskId)) calls logs fun add calls logs =>
      let attached := add.ok || add.status == 409
      let logs := if attached then logs else logs ++ ["Add to Job Tracker failed:"]
      actions3B cfg env (jsToStringO taskId) taskId listId
        (entityFor cfg (jsToStringO listId)) attached calls logs
  else
    actions3B cfg env (jsToStringO taskId) taskId listId
      (entityFor cfg (jsToStringO listId)) false calls logs

/-- After list resolution: the optional global filter, then the `taskCreated`
gate — any other event (or falsy task id) is acknowledged as a no-op. -/
def afterResolve (cfg : Config) (env : Env) (event taskId listId : Option JValue)
    (calls : List CuCall) (logs : List String) : HandlerOut :=
  if filterSkips cfg listId then ⟨200, .skipped, calls, logs⟩
  else if eqTaskCreated event && truthyO taskId then
    actions cfg env taskId listId calls logs
  else ⟨200, .okPlain, calls, logs⟩

/-- After parsing: extract the fields, resolve the list id through the task
lookup when it is missing, and continue.  The source destructures the single
`cu` call's result; `resolvedListId` re-reads it through the same
deterministic `cuResp`, so the two are one and the same answer. -/
def afterParse (cfg : Config) (env : Env) (body : JValue) : HandlerOut :=
  if !truthyO (extractListId body) && truthyO (extractTaskId body) then
    cuStep cfg env (taskLookupCall (jsToStringO (extractTaskId body))) [] [] fun _ calls logs =>
      afterResolve cfg env (extractEvent body) (extractTaskId body)
        (resolvedListId env (jsToStringO (extractTaskId body))) calls logs
  else
    afterResolve cfg env (extractEvent body) (extractTaskId body) (extractListId body) [] []

/-- The exported handler: method gate, configuration gate, HMAC verification
over the raw body, JSON parsing, then the dispatch pipeline. -/
def handler (cfg : Config) (env : Env) (req : Request) : HandlerOut :=
  if req.method ≠ "POST" then ⟨405, .err "Method not allowed", [], []⟩
  else
    match cfg.secret with
    | none => ⟨500, .err "Missing CLICKUP_WEBHOOK_SECRET", [], []⟩
    | some secret =>
      if req.xSignature ≠ some (hmacSha256Hex secret req.rawBody) then
        ⟨401, .err "Invalid signature", [], []⟩
      else
        match env.jsonParse req.rawBody with
        | none => ⟨400, .err "Invalid JSON", [], []⟩
        | some body => afterParse cfg env body

/-! ## Helper lemmas: statuses and call lists of the pipeline -/

theorem cuStep_cases (cfg : Config) (env : Env) (c : CuCall) (cs : List CuCall)
    (ls : List String) (k : CuResult → List CuCall → List String → HandlerOut) :
    cuStep cfg env c cs ls k = ⟨500, .err "Missing CLICKUP_TOKEN", cs, ls⟩ ∨
      cuStep cfg env c cs ls k = k (cuResp env c) (cs ++ [c]) ls := by
  cases h : cfg.token <;> simp [cuStep, h]

theorem actionsDone_status (tid taskId listId a d e n hE hD cs ls) :
    (actionsDone tid taskId listId a d e n hE hD cs ls).status = 200 := rfl

theorem actions3D_status (cfg env tid taskId listId a d e n cs ls) :
    (actions3D cfg env tid taskId listId a d e n cs ls).status = 200 ∨
    (actions3D cfg env tid taskId listId a d e n cs ls).status = 500 := by
  unfold actions3D
  cases htok : cfg.token <;> cases a <;> simp [cuStep, htok, actionsDone]

theorem actions3C_status (cfg env tid taskId listId ef a d cs ls) :
    (actions3C cfg env tid taskId listId ef a d cs ls).status = 200 ∨
    (actions3C cfg env tid taskId listId ef a d cs ls).status = 500 := by
  unfold actions3C
  split
  · split
    · cases htok : cfg.token with
      | none => simp [cuStep, htok]
      | some t =>
        simp only [cuStep, htok]
        exact actions3D_status ..
    · exact actions3D_status ..
  · exact actions3D_status ..

theorem actions3B_status (cfg env tid taskId listId ef a cs ls) :
    (actions3B cfg env tid taskId listId ef a cs ls).status = 200 ∨
    (actions3B cfg env tid taskId listId ef a cs ls).status = 500 := by
  unfold actions3B
  split
  · cases htok : cfg.token with
    | none => simp [cuStep, htok]
    | some t =>
      simp only [cuStep, htok]
      exact actions3C_status ..
  · exact actions3C_status ..

theorem actions_status (cfg env taskId listId cs ls) :
    (actions cfg env taskId listId cs ls).status = 200 ∨
    (actions cfg env taskId listId cs ls).status = 500 := by
  unfold actions
  split
  · cases htok : cfg.token with
    | none => simp [cuStep, htok]
    | some t =>
      simp only [cuStep, htok]
      exact actions3B_status ..
  · exact actions3B_status ..

theorem afterResolve_status (cfg env event taskId listId cs ls) :
    (afterResolve cfg env event taskId listId cs ls).status = 200 ∨
    (afterResolve cfg env event taskId listId cs ls).status = 500 := by
  unfold afterResolve
  split
  · left; rfl
  · split
    · exact actions_status ..
    · left; rfl

theorem afterParse_status (cfg env body) :
    (afterParse cfg env body).status = 200 ∨ (afterParse cfg env body).status = 500 := by
  unfold afterParse
  split
  · cases htok : cfg.token with
    | none => simp [cuStep, htok]
    | some t =>
      simp only [cuStep, htok]
      exact afterResolve_status ..
  · exact afterResolve_status ..

/-! ## Hex output shape -/

theorem digitChar_mod_mem (i : Nat) : Nat.digitChar (i % 16) ∈ hexDigits := by
  rw [hexDigits, List.mem_map]
  exact ⟨i % 16, List.mem_range.mpr (Nat.mod_lt _ (by decide)), rfl⟩

theorem hexListLower_all (bs : List Nat) :
    ((bs.map byteHexLower).flatten).all (fun c => hexDigits.contains c) = true := by
  induction bs with
  | nil => rfl
  | cons b rest ih =>
    simp only [List.map_cons, List.flatten_cons, List.all_append, ih, Bool.and_true]
    simp only [byteHexLower, List.all_cons, List.all_nil, Bool.and_true, List.elem_eq_mem,
      decide_eq_true_eq, Bool.and_eq_true]
    exact ⟨digitChar_mod_mem _, digitChar_mod_mem _⟩

/-! ## Claim C1 -/

/-- C1: for every request body `raw` and configured secret, the signature
check passes (the handler does not answer 401) exactly when the `X-Signature`
header equals the lowercase hex encoding of HMAC-SHA256 of the secret over
the literal bytes of the body; a missing header never passes; and the
expected digest consists of lowercase hex digits only. -/
theorem C1_signature_verification (cfg : Config) (env : Env)
    (secret raw : String) (sig : Option String) :
    ((handler { cfg with secret := some secret } env ⟨"POST", sig, raw⟩).status ≠ 401 ↔
       sig = some (hmacSha256Hex secret raw)) ∧
    (handler { cfg with secret := some secret } env ⟨"POST", none, raw⟩).status = 401 ∧
    (hmacSha256Hex secret raw).data.all (fun c => hexDigits.contains c) = true := by
  refine ⟨⟨?_, ?_⟩, ?_, ?_⟩
  · intro hne
    by_contra hsig
    exact hne (by simp [handler, hsig])
  · intro h
    subst h
    cases hp : env.jsonParse raw with
    | none => simp [handler, hp]
    | some body =>
      simp only [handler, hp]
      have h2 := afterParse_status { cfg with secret := some secret } env body
      simp only [ne_eq, ite_not]
      rcases h2 with h2 | h2 <;> simp [h2]
  · simp [handler]
  · exact hexListLower_all _

/-! ## Claim C2 -/

/-- C2: a request whose `X-Signature` header differs from the expected HMAC
digest is answered 401 and nothing else happens: the output is the constant
401 response with an empty call list and empty log, for every JSON runtime
and every transport — so the body is never parsed, no table is consulted and
no outbound call is made, whether or not the body is valid JSON. -/
theorem C2_unverified_rejected_before_work (cfg : Config) (env : Env)
    (secret raw : String) (sig : Option String)
    (hsig : sig ≠ some (hmacSha256Hex secret raw)) :
    handler { cfg with secret := some secret } env ⟨"POST", sig, raw⟩ =
      ⟨401, .err "Invalid signature", [], []⟩ := by
  simp [handler, hsig]

/-- C2 witness: a concrete request with a missing signature header is the
constant 401 output. -/
theorem C2_witness :
    (none ≠ some (hmacSha256Hex "s" "body")) ∧
    handler { baseConfig none none with secret := some "s" }
        ⟨fun _ => none, fun _ => ⟨200, ""⟩, 0⟩ ⟨"POST", none, "body"⟩ =
      ⟨401, .err "Invalid signature", [], []⟩ :=
  ⟨by simp, C2_unverified_rejected_before_work (baseConfig none none)
    ⟨fun _ => none, fun _ => ⟨200, ""⟩, 0⟩ "s" "body" none (by simp)⟩

/-! ## Claim C9 -/

/-- Modelled from the spec wording of C9 (refinement reference only): the
first PRESENT value among the three task-id locations, presence meaning the
field exists at all. -/
def extractTaskIdFirstPresent (body : JValue) : Option JValue :=
  match jGet (some body) "task_id" with
  | some v => some v
  | none =>
    match jGet (jGet (some body) "task") "id" with
    | some v => some v
    | none => jGet (jGet (some body) "payload") "task_id"

/-- C9 counterexample: with `task_id` present but empty and `task.id` set,
the code extracts the nested `task.id`, not the present top-level value the
claim demands. -/
theorem C9_counterexample :
    extractTaskId (.obj [("task_id", .str ""), ("task", .obj [("id", .str "T1")])]) =
        some (.str "T1") ∧
    extractTaskIdFirstPresent
        (.obj [("task_id", .str ""), ("task", .obj [("id", .str "T1")])]) =
        some (.str "") ∧
    (some (JValue.str "T1") ≠ some (JValue.str "")) :=
  ⟨rfl, rfl, by simp⟩

/-- First truthy candidate, the last candidate returned as-is when no earlier
one is truthy — the value of a JavaScript `a || b || c` chain. -/
def firstTruthy : List (Option JValue) → Option JValue
  | [] => none
  | [x] => x
  | x :: xs => if truthyO x then x else firstTruthy xs

/-- C9 amended: the extracted taskId is the first TRUTHY value among
top-level `task_id`, nested `task.id`, nested `payload.task_id` in that
order (a present-but-falsy `task_id` is skipped; the last location's value
is used as-is when none is truthy). -/
theorem C9_taskId_first_truthy (body : JValue) :
    extractTaskId body =
      firstTruthy [jGet (some body) "task_id", jGet (jGet (some body) "task") "id",
        jGet (jGet (some body) "payload") "task_id"] := by
  simp only [extractTaskId, jsOr, firstTruthy]

/-! ## Pipeline reduction lemmas -/

theorem cuResp_status (env : Env) (c : CuCall) :
    (cuResp env c).status = (env.oracle c).status := by
  unfold cuResp
  dsimp only
  split <;> rfl

theorem cuResp_ok_false (env : Env) (c : CuCall)
    (h : ¬(200 ≤ (env.oracle c).status ∧ (env.oracle c).status ≤ 299)) :
    (cuResp env c).ok = false := by
  simp [cuResp, h]

theorem cuResp_ok_true (env : Env) (c : CuCall)
    (h : 200 ≤ (env.oracle c).status ∧ (env.oracle c).status ≤ 299) :
    (cuResp env c).ok = true := by
  simp [cuResp, h]

theorem handler_verified_eq (cfg : Config) (env : Env) (secret raw : String)
    (body : JValue) (hsec : cfg.secret = some secret)
    (hp : env.jsonParse raw = some body) :
    handler cfg env ⟨"POST", some (hmacSha256Hex secret raw), raw⟩ =
      afterParse cfg env body := by
  simp [handler, hsec, hp]

theorem afterParse_with_listId (cfg : Config) (env : Env) (body : JValue)
    (h1 : truthyO (extractListId body) = true) :
    afterParse cfg env body =
      afterResolve cfg env (extractEvent body) (extractTaskId body)
        (extractListId body) [] [] := by
  simp [afterParse, h1]

theorem afterParse_resolving (cfg : Config) (env : Env) (body : JValue) (tok : String)
    (h1 : truthyO (extractListId body) = false)
    (h2 : truthyO (extractTaskId body) = true)
    (htok : cfg.token = some tok) :
    afterParse cfg env body =
      afterResolve cfg env (extractEvent body) (extractTaskId body)
        (resolvedListId env (jsToStringO (extractTaskId body)))
        [taskLookupCall (jsToStringO (extractTaskId body))] [] := by
  simp [afterParse, h1, h2, cuStep, htok]

theorem afterParse_resolving_no_token (cfg : Config) (env : Env) (body : JValue)
    (h1 : truthyO (extractListId body) = false)
    (h2 : truthyO (extractTaskId body) = true)
    (htok : cfg.token = none) :
    afterParse cfg env body = ⟨500, .err "Missing CLICKUP_TOKEN", [], []⟩ := by
  simp [afterParse, h1, h2, cuStep, htok]

theorem afterResolve_to_actions (cfg : Config) (env : Env)
    (event taskId listId : Option JValue) (cs : List CuCall) (ls : List String)
    (hf : filterSkips cfg listId = false)
    (he : eqTaskCreated event = true) (ht : truthyO taskId = true) :
    afterResolve cfg env event taskId listId cs ls =
      actions cfg env taskId listId cs ls := by
  simp [afterResolve, hf, he, ht]

theorem afterResolve_skips (cfg : Config) (env : Env)
    (event taskId listId : Option JValue) (cs : List CuCall) (ls : List String)
    (hf : filterSkips cfg listId = true) :
    afterResolve cfg env event taskId listId cs ls = ⟨200, .skipped, cs, ls⟩ := by
  simp [afterResolve, hf]

theorem afterResolve_noop (cfg : Config) (env : Env)
    (event taskId listId : Option JValue) (cs : List CuCall) (ls : List String)
    (hf : filterSkips cfg listId = false)
    (hg : (eqTaskCreated event && truthyO taskId) = false) :
    afterResolve cfg env event taskId listId cs ls = ⟨200, .okPlain, cs, ls⟩ := by
  simp [afterResolve, hf, hg]

/-! ## Claim C7 -/

/-- C7 counterexample: with `listId` absent and the API token unconfigured,
the resolver's `cu` call throws and the catch block aborts the whole request
with a 500 — the claim's "missing token configuration fails open" is false
for this code. -/
theorem C7_counterexample :
    handler (baseConfig (some "s") none)
      ⟨fun r => if r = "raw" then
          some (.obj [("event", .str "taskCreated"), ("task_id", .str "T1")]) else none,
        fun _ => ⟨200, ""⟩, 0⟩
      ⟨"POST", some (hmacSha256Hex "s" "raw"), "raw"⟩ =
      ⟨500, .err "Missing CLICKUP_TOKEN", [], []⟩ := by
  rw [handler_verified_eq _ _ "s" "raw"
        (.obj [("event", .str "taskCreated"), ("task_id", .str "T1")]) rfl (by simp)]
  exact afterParse_resolving_no_token _ _ _ rfl rfl rfl

/-- C7 amended: when `listId` is absent from the payload, a task id is
present, the token IS configured and the lookup fails to produce a list id
(non-2xx status, malformed body, or a body without `list.id` — all collapse
to an unresolved `resolvedListId`), the request proceeds: it answers 200,
the summary reports no list-keyed action (attached and entitySet false,
no entity name, listId unresolved), and the only calls issued are the lookup
itself and the unconditional date stamp. -/
theorem C7_lookup_failure_fails_open (env : Env) (secret tok raw : String)
    (body : JValue) (hp : env.jsonParse raw = some body)
    (h1 : truthyO (extractListId body) = false)
    (h2 : truthyO (extractTaskId body) = true)
    (hev : eqTaskCreated (extractEvent body) = true)
    (hres : resolvedListId env (jsToStringO (extractTaskId body)) = none) :
    (handler (baseConfig (some secret) (some tok)) env
        ⟨"POST", some (hmacSha256Hex secret raw), raw⟩).status = 200 ∧
    (∃ d, (handler (baseConfig (some secret) (some tok)) env
        ⟨"POST", some (hmacSha256Hex secret raw), raw⟩).respBody =
      .summary (extractTaskId body) none false d false none) ∧
    (handler (baseConfig (some secret) (some tok)) env
        ⟨"POST", some (hmacSha256Hex secret raw), raw⟩).calls =
      [taskLookupCall (jsToStringO (extractTaskId body)),
       setFieldCall (jsToStringO (extractTaskId body))
         "5497bac6-d964-434e-af6e-706995976c07" (toString env.now)] := by
  rw [handler_verified_eq _ _ secret raw _ rfl hp,
      afterParse_resolving _ _ _ tok h1 h2 rfl, hres,
      afterResolve_to_actions _ _ _ _ _ _ _ (by simp [filterSkips, baseConfig]) hev h2]
  refine ⟨?_, ⟨(cuResp env (setFieldCall (jsToStringO (extractTaskId body))
      "5497bac6-d964-434e-af6e-706995976c07" (toString env.now))).ok, ?_⟩, ?_⟩ <;>
    simp +decide [actions, actions3B, actions3C, actions3D, actionsDone, cuStep,
      entityFor, strOptTruthy, attachSourceListIds, baseConfig, listToEntityDefault,
      jsToStringO, jsToString, List.lookup]

/-- C7 witness: a concrete lookup that answers 500 leaves the list
unresolved and the request completes with 200. -/
theorem C7_witness :
    (handler (baseConfig (some "s") (some "t"))
        ⟨fun r => if r = "raw" then
            some (.obj [("event", .str "taskCreated"), ("task_id", .str "T1")]) else none,
          fun _ => ⟨500, "x"⟩, 7⟩
        ⟨"POST", some (hmacSha256Hex "s" "raw"), "raw"⟩).status = 200 ∧
    (∃ d, (handler (baseConfig (some "s") (some "t"))
        ⟨fun r => if r = "raw" then
            some (.obj [("event", .str "taskCreated"), ("task_id", .str "T1")]) else none,
          fun _ => ⟨500, "x"⟩, 7⟩
        ⟨"POST", some (hmacSha256Hex "s" "raw"), "raw"⟩).respBody =
      .summary (extractTaskId (.obj [("event", .str "taskCreated"), ("task_id", .str "T1")]))
        none false d false none) ∧
    (handler (baseConfig (some "s") (some "t"))
        ⟨fun r => if r = "raw" then
            some (.obj [("event", .str "taskCreated"), ("task_id", .str "T1")]) else none,
          fun _ => ⟨500, "x"⟩, 7⟩
        ⟨"POST", some (hmacSha256Hex "s" "raw"), "raw"⟩).calls =
      [taskLookupCall (jsToStringO (extractTaskId
          (.obj [("event", .str "taskCreated"), ("task_id", .str "T1")]))),
       setFieldCall (jsToStringO (extractTaskId
          (.obj [("event", .str "taskCreated"), ("task_id", .str "T1")])))
         "5497bac6-d964-434e-af6e-706995976c07" (toString (7 : Nat))] :=
  C7_lookup_failure_fails_open
    ⟨fun r => if r = "raw" then
        some (.obj [("event", .str "taskCreated"), ("task_id", .str "T1")]) else none,
      fun _ => ⟨500, "x"⟩, 7⟩
    "s" "t" "raw" (.obj [("event", .str "taskCreated"), ("task_id", .str "T1")])
    rfl rfl rfl rfl rfl

/-! ## Claim C4 -/

/-- C4 counterexample: with the global filter configured and the list id
absent from the payload, the skipped request still issued one remote call —
the list-resolution task lookup — so "zero outbound remote calls over the
whole request" is false. -/
theorem C4_counterexample :
    handler { baseConfig (some "s") (some "t") with targetListId := some "LT" }
      ⟨fun r => if r = "raw" then
          some (.obj [("event", .str "taskCreated"), ("task_id", .str "T1")])
        else if r = "tj" then some (.obj [("list", .obj [("id", .str "L2")])])
        else none,
        fun _ => ⟨200, "tj"⟩, 0⟩
      ⟨"POST", some (hmacSha256Hex "s" "raw"), "raw"⟩ =
      ⟨200, .skipped, [taskLookupCall "T1"], []⟩ ∧
    [taskLookupCall "T1"] ≠ ([] : List CuCall) :=
  ⟨by
    rw [handler_verified_eq _ _ "s" "raw"
          (.obj [("event", .str "taskCreated"), ("task_id", .str "T1")]) rfl (by simp),
        afterParse_resolving _ _
          (.obj [("event", .str "taskCreated"), ("task_id", .str "T1")]) "t" rfl rfl rfl]
    exact afterResolve_skips _ _ _ _ _ _ _ rfl,
   by simp⟩

/-- C4 amended: with the filter configured and the resolved list id different
from it (string comparison), the handler answers 200 with the skipped marker
and performs no outbound calls apart from the single list-resolution task
lookup, which is issued exactly when the payload carries no list id but a
task id: a payload-supplied list id gives zero calls, a resolver-supplied
one gives only the lookup. -/
theorem C4_filter_skips_without_actions :
    (∀ (cfg : Config) (env : Env) (secret raw target : String) (body : JValue),
      cfg.secret = some secret → env.jsonParse raw = some body →
      cfg.targetListId = some target →
      truthyO (extractListId body) = true →
      jsToStringO (extractListId body) ≠ target →
      handler cfg env ⟨"POST", some (hmacSha256Hex secret raw), raw⟩ =
        ⟨200, .skipped, [], []⟩) ∧
    (∀ (cfg : Config) (env : Env) (secret raw tok target : String) (body : JValue),
      cfg.secret = some secret → env.jsonParse raw = some body →
      cfg.targetListId = some target → cfg.token = some tok →
      truthyO (extractListId body) = false →
      truthyO (extractTaskId body) = true →
      jsToStringO (resolvedListId env (jsToStringO (extractTaskId body))) ≠ target →
      handler cfg env ⟨"POST", some (hmacSha256Hex secret raw), raw⟩ =
        ⟨200, .skipped, [taskLookupCall (jsToStringO (extractTaskId body))], []⟩) := by
  constructor
  · intro cfg env secret raw target body hsec hp htarget hli hne
    rw [handler_verified_eq _ _ secret raw _ hsec hp,
        afterParse_with_listId _ _ _ hli]
    exact afterResolve_skips _ _ _ _ _ _ _ (by simp [filterSkips, htarget, hne])
  · intro cfg env secret raw tok target body hsec hp htarget htok h1 h2 hne
    rw [handler_verified_eq _ _ secret raw _ hsec hp,
        afterParse_resolving _ _ _ tok h1 h2 htok]
    exact afterResolve_skips _ _ _ _ _ _ _ (by simp [filterSkips, htarget, hne])

/-- C4 witness: both filtered shapes at concrete inputs — a payload list id
gives zero calls, a resolver-supplied one gives exactly the lookup. -/
theorem C4_witness :
    handler { baseConfig (some "s") (some "t") with targetListId := some "LT" }
      ⟨fun r => if r = "raw" then
          some (.obj [("event", .str "taskCreated"), ("task_id", .str "T1"),
                      ("list_id", .str "L9")]) else none,
        fun _ => ⟨200, ""⟩, 0⟩
      ⟨"POST", some (hmacSha256Hex "s" "raw"), "raw"⟩ =
      ⟨200, .skipped, [], []⟩ ∧
    handler { baseConfig (some "s") (some "t") with targetListId := some "LT" }
      ⟨fun r => if r = "raw" then
          some (.obj [("event", .str "taskCreated"), ("task_id", .str "T1")]) else none,
        fun _ => ⟨200, ""⟩, 0⟩
      ⟨"POST", some (hmacSha256Hex "s" "raw"), "raw"⟩ =
      ⟨200, .skipped, [taskLookupCall "T1"], []⟩ :=
  ⟨C4_filter_skips_without_actions.1
      { baseConfig (some "s") (some "t") with targetListId := some "LT" }
      ⟨fun r => if r = "raw" then
          some (.obj [("event", .str "taskCreated"), ("task_id", .str "T1"),
                      ("list_id", .str "L9")]) else none,
        fun _ => ⟨200, ""⟩, 0⟩
      "s" "raw" "LT" _ rfl rfl rfl rfl (by decide),
   C4_filter_skips_without_actions.2
      { baseConfig (some "s") (some "t") with targetListId := some "LT" }
      ⟨fun r => if r = "raw" then
          some (.obj [("event", .str "taskCreated"), ("task_id", .str "T1")]) else none,
        fun _ => ⟨200, ""⟩, 0⟩
      "s" "raw" "t" "LT" _ rfl rfl rfl rfl rfl rfl (by decide)⟩

/-! ## Claim C5 -/

/-- C5 counterexample: the spec's own example — `{event:"taskMoved",
task_id:"T1"}` — answers 200 `{ok:true}`, but because the payload lacks a
list id the handler still issued the list-resolution task lookup, so "zero
outbound remote calls" is false. -/
theorem C5_counterexample :
    handler (baseConfig (some "s") (some "t"))
      ⟨fun r => if r = "raw" then
          some (.obj [("event", .str "taskMoved"), ("task_id", .str "T1")]) else none,
        fun _ => ⟨200, ""⟩, 0⟩
      ⟨"POST", some (hmacSha256Hex "s" "raw"), "raw"⟩ =
      ⟨200, .okPlain, [taskLookupCall "T1"], []⟩ ∧
    [taskLookupCall "T1"] ≠ ([] : List CuCall) :=
  ⟨by
    rw [handler_verified_eq _ _ "s" "raw"
          (.obj [("event", .str "taskMoved"), ("task_id", .str "T1")]) rfl (by simp),
        afterParse_resolving _ _
          (.obj [("event", .str "taskMoved"), ("task_id", .str "T1")]) "t" rfl rfl rfl]
    exact afterResolve_noop _ _ _ _ _ _ _ rfl rfl,
   by simp⟩

/-- C5 amended: with no global filter configured, a verified request whose
event is not `taskCreated` or whose task id is falsy answers 200 `{ok:true}`
and issues no action calls; the call list is empty when the payload carries
a list id or no task id, and is exactly the single list-resolution lookup
when the list id is absent, a task id is present and the token configured. -/
theorem C5_non_taskCreated_noop :
    (∀ (cfg : Config) (env : Env) (secret raw : String) (body : JValue),
      cfg.secret = some secret → env.jsonParse raw = some body →
      cfg.targetListId = none →
      (eqTaskCreated (extractEvent body) && truthyO (extractTaskId body)) = false →
      (truthyO (extractListId body) = true ∨ truthyO (extractTaskId body) = false) →
      handler cfg env ⟨"POST", some (hmacSha256Hex secret raw), raw⟩ =
        ⟨200, .okPlain, [], []⟩) ∧
    (∀ (cfg : Config) (env : Env) (secret raw tok : String) (body : JValue),
      cfg.secret = some secret → env.jsonParse raw = some body →
      cfg.targetListId = none → cfg.token = some tok →
      (eqTaskCreated (extractEvent body) && truthyO (extractTaskId body)) = false →
      truthyO (extractListId body) = false →
      truthyO (extractTaskId body) = true →
      handler cfg env ⟨"POST", some (hmacSha256Hex secret raw), raw⟩ =
        ⟨200, .okPlain, [taskLookupCall (jsToStringO (extractTaskId body))], []⟩) := by
  constructor
  · intro cfg env secret raw body hsec hp hnof hg hnr
    rw [handler_verified_eq _ _ secret raw _ hsec hp]
    rcases hnr with hli | hti
    · rw [afterParse_with_listId _ _ _ hli]
      exact afterResolve_noop _ _ _ _ _ _ _ (by simp [filterSkips, hnof]) hg
    · have hcond : (!truthyO (extractListId body) && truthyO (extractTaskId body)) = false := by
        simp [hti]
      rw [show afterParse cfg env body =
            afterResolve cfg env (extractEvent body) (extractTaskId body)
              (extractListId body) [] [] by simp [afterParse, hcond]]
      exact afterResolve_noop _ _ _ _ _ _ _ (by simp [filterSkips, hnof]) hg
  · intro cfg env secret raw tok body hsec hp hnof htok hg h1 h2
    rw [handler_verified_eq _ _ secret raw _ hsec hp,
        afterParse_resolving _ _ _ tok h1 h2 htok]
    exact afterResolve_noop _ _ _ _ _ _ _ (by simp [filterSkips, hnof]) hg

/-- C5 witness: a `taskMoved` event with a payload list id issues zero calls;
one without a list id issues exactly the lookup. -/
theorem C5_witness :
    handler (baseConfig (some "s") (some "t"))
      ⟨fun r => if r = "raw" then
          some (.obj [("event", .str "taskMoved"), ("task_id", .str "T1"),
                      ("list_id", .str "L9")]) else none,
        fun _ => ⟨200, ""⟩, 0⟩
      ⟨"POST", some (hmacSha256Hex "s" "raw"), "raw"⟩ =
      ⟨200, .okPlain, [], []⟩ ∧
    handler (baseConfig (some "s") (some "t"))
      ⟨fun r => if r = "raw" then
          some (.obj [("event", .str "taskMoved"), ("task_id", .str "T2")]) else none,
        fun _ => ⟨200, ""⟩, 0⟩
      ⟨"POST", some (hmacSha256Hex "s" "raw"), "raw"⟩ =
      ⟨200, .okPlain, [taskLookupCall "T2"], []⟩ :=
  ⟨C5_non_taskCreated_noop.1 (baseConfig (some "s") (some "t"))
      ⟨fun r => if r = "raw" then
          some (.obj [("event", .str "taskMoved"), ("task_id", .str "T1"),
                      ("list_id", .str "L9")]) else none,
        fun _ => ⟨200, ""⟩, 0⟩
      "s" "raw" _ rfl rfl rfl rfl (Or.inl rfl),
   C5_non_taskCreated_noop.2 (baseConfig (some "s") (some "t"))
      ⟨fun r => if r = "raw" then
          some (.obj [("event", .str "taskMoved"), ("task_id", .str "T2")]) else none,
        fun _ => ⟨200, ""⟩, 0⟩
      "s" "raw" "t" _ rfl rfl rfl rfl rfl rfl rfl⟩

/-! ## Response shape lemmas for the action block -/

theorem actions3D_respBody {cfg : Config} {tok : String} (htok : cfg.token = some tok)
    (env : Env) (tid : String) (taskId listId : Option JValue) (a d e : Bool)
    (n : Option String) (cs : List CuCall) (ls : List String) :
    (actions3D cfg env tid taskId listId a d e n cs ls).respBody =
      .summary taskId listId a d e n := by
  unfold actions3D
  cases a <;> simp [cuStep, htok, actionsDone]

theorem actions3C_respBody {cfg : Config} {tok : String} (htok : cfg.token = some tok)
    (env : Env) (tid : String) (taskId listId : Option JValue) (ef : Option String)
    (a d : Bool) (cs : List CuCall) (ls : List String) :
    ∃ e n, (actions3C cfg env tid taskId listId ef a d cs ls).respBody =
      .summary taskId listId a d e n := by
  unfold actions3C
  split
  · split
    · simp only [cuStep, htok]
      exact ⟨_, _, actions3D_respBody htok env tid taskId listId a d _ _ _ _⟩
    · exact ⟨_, _, actions3D_respBody htok env tid taskId listId a d _ _ _ _⟩
  · exact ⟨_, _, actions3D_respBody htok env tid taskId listId a d _ _ _ _⟩

theorem actions3B_respBody {cfg : Config} {tok : String} (htok : cfg.token = some tok)
    (env : Env) (tid : String) (taskId listId : Option JValue) (ef : Option String)
    (a : Bool) (cs : List CuCall) (ls : List String) :
    ∃ d e n, (actions3B cfg env tid taskId listId ef a cs ls).respBody =
      .summary taskId listId a d e n := by
  unfold actions3B
  split
  · simp only [cuStep, htok]
    obtain ⟨e, n, h⟩ := actions3C_respBody htok env tid taskId listId ef a _ _ _
    exact ⟨_, e, n, h⟩
  · obtain ⟨e, n, h⟩ := actions3C_respBody htok env tid taskId listId ef a false _ _
    exact ⟨false, e, n, h⟩

/-- With the attach branch taken and the transport answering 409 on the
attach call, the action block records `attached = true` in its response. -/
theorem actions_attach_409 {cfg : Config} {tok : String} (htok : cfg.token = some tok)
    (env : Env) (taskId listId : Option JValue) (cs : List CuCall) (ls : List String)
    (ha : (attachSourceListIds cfg).contains (jsToStringO listId) = true)
    (h409 : (env.oracle (attachCall cfg (jsToStringO taskId))).status = 409) :
    ∃ d e n, (actions cfg env taskId listId cs ls).respBody =
      .summary taskId listId true d e n := by
  have hst : ((cuResp env (attachCall cfg (jsToStringO taskId))).status == 409) = true := by
    rw [cuResp_status, h409]
    rfl
  unfold actions
  simp only [ha, if_true, cuStep, htok, hst, Bool.or_true]
  exact actions3B_respBody htok env _ taskId listId _ true _ _

/-! ## Claim C6 -/

/-- C6: for a verified `taskCreated` request whose resolved list is in the
attach allow-set, an attach call answered HTTP 409 is recorded as
`attached = true` in the response body. -/
theorem C6_409_recorded_as_attached (cfg : Config) (env : Env)
    (secret raw tok : String) (body : JValue)
    (hsec : cfg.secret = some secret) (hp : env.jsonParse raw = some body)
    (htok : cfg.token = some tok)
    (hev : eqTaskCreated (extractEvent body) = true)
    (hti : truthyO (extractTaskId body) = true)
    (hli : truthyO (extractListId body) = true)
    (hf : filterSkips cfg (extractListId body) = false)
    (ha : (attachSourceListIds cfg).contains (jsToStringO (extractListId body)) = true)
    (h409 : (env.oracle (attachCall cfg (jsToStringO (extractTaskId body)))).status = 409) :
    ∃ d e n, (handler cfg env ⟨"POST", some (hmacSha256Hex secret raw), raw⟩).respBody =
      .summary (extractTaskId body) (extractListId body) true d e n := by
  rw [handler_verified_eq _ _ secret raw _ hsec hp,
      afterParse_with_listId _ _ _ hli,
      afterResolve_to_actions _ _ _ _ _ _ _ hf hev hti]
  exact actions_attach_409 htok env _ _ _ _ ha h409

/-- C6 witness: the Secunda list with a transport answering 409 to the attach
call reports `attached = true`. -/
theorem C6_witness :
    ∃ d e n, (handler (baseConfig (some "s") (some "t"))
      ⟨fun r => if r = "raw" then
          some (.obj [("event", .str "taskCreated"), ("task_id", .str "T1"),
                      ("list_id", .str "901205280473")]) else none,
        fun c => if c.path = "/list/901211501276/task/T1" then ⟨409, ""⟩ else ⟨200, ""⟩,
        0⟩
      ⟨"POST", some (hmacSha256Hex "s" "raw"), "raw"⟩).respBody =
      .summary (some (.str "T1")) (some (.str "901205280473")) true d e n :=
  C6_409_recorded_as_attached (baseConfig (some "s") (some "t"))
    ⟨fun r => if r = "raw" then
        some (.obj [("event", .str "taskCreated"), ("task_id", .str "T1"),
                    ("list_id", .str "901205280473")]) else none,
      fun c => if c.path = "/list/901211501276/task/T1" then ⟨409, ""⟩ else ⟨200, ""⟩,
      0⟩
    "s" "raw" "t"
    (.obj [("event", .str "taskCreated"), ("task_id", .str "T1"),
           ("list_id", .str "901205280473")])
    rfl rfl rfl rfl rfl rfl rfl (by decide) rfl

/-! ## The attach allow-set contains every entity-mapped list -/

theorem lookup_isSome_mem_keys {m : List (String × String)} {l : String}
    (h : (m.lookup l).isSome) : l ∈ m.map Prod.fst := by
  induction m with
  | nil => simp [List.lookup] at h
  | cons kv rest ih =>
    obtain ⟨k, v⟩ := kv
    by_cases hk : l = k
    · simp [hk]
    · rw [List.lookup, show (l == k) = false by simp [hk]] at h
      simp [ih h]

theorem entity_keys_in_attach_set (cfg : Config) (l : String)
    (h : (cfg.listToEntity.lookup l).isSome) :
    (attachSourceListIds cfg).contains l = true := by
  simp only [attachSourceListIds, List.contains, List.elem_eq_mem, decide_eq_true_eq,
    List.mem_append]
  exact Or.inl (lookup_isSome_mem_keys h)

/-! ## Call-list and log monotonicity of step 3D -/

theorem actions3D_calls_mono {cfg : Config} {env : Env} {tid : String}
    {taskId listId : Option JValue} {a d e : Bool} {n : Option String}
    {cs : List CuCall} {ls : List String} {c : CuCall} (hc : c ∈ cs) :
    c ∈ (actions3D cfg env tid taskId listId a d e n cs ls).calls := by
  unfold actions3D
  cases htok : cfg.token <;> cases a <;>
    simp [cuStep, htok, actionsDone, hc]

theorem actions3D_logs_mono {cfg : Config} {env : Env} {tid : String}
    {taskId listId : Option JValue} {a d e : Bool} {n : Option String}
    {cs : List CuCall} {ls : List String} {x : String} (hx : x ∈ ls) :
    x ∈ (actions3D cfg env tid taskId listId a d e n cs ls).logs := by
  unfold actions3D
  cases htok : cfg.token <;> cases a <;>
    simp only [cuStep, htok, actionsDone] <;>
    split_ifs <;> simp [hx]

/-! ## The entity branch, evaluated -/

/-- With the attach branch taken, a configured date field, a mapped entity
and a configured option id, the action block issues the entity-field call
and reports its success as `entitySet`, with the entity's name. -/
theorem actions_entity_configured {cfg : Config} {tok : String}
    (htok : cfg.token = some tok) (env : Env) (taskId listId : Option JValue)
    (cs : List CuCall) (ls : List String) (e o : String)
    (hef : entityFor cfg (jsToStringO listId) = some e)
    (hopt : strOptTruthy (cfg.entityOpt.lookup e) = some o)
    (ha : (attachSourceListIds cfg).contains (jsToStringO listId) = true)
    (hdf : (cfg.dateFieldId != "") = true) :
    setFieldCall (jsToStringO taskId) cfg.entityFieldId (jsonStr o) ∈
      (actions cfg env taskId listId cs ls).calls ∧
    ∃ a d, (actions cfg env taskId listId cs ls).respBody =
      .summary taskId listId a d
        (cuResp env (setFieldCall (jsToStringO taskId) cfg.entityFieldId (jsonStr o))).ok
        (some e) := by
  unfold actions
  simp only [ha, if_true, cuStep, htok, hef]
  unfold actions3B
  simp only [hdf, if_true, cuStep, htok]
  unfold actions3C
  dsimp only
  rw [hopt]
  simp only [cuStep, htok]
  constructor
  · exact actions3D_calls_mono (by simp)
  · exact ⟨_, _, actions3D_respBody htok env _ taskId listId _ _ _ _ _ _⟩

/-- With the attach branch taken, a configured date field, a mapped entity
but NO configured option id, the action block logs the defect, reports
`entitySet = false` with no entity name, and issues only the attach, date
and (when attached) hours calls — no entity-field call. -/
theorem actions_entity_missing {cfg : Config} {tok : String}
    (htok : cfg.token = some tok) (env : Env) (taskId listId : Option JValue)
    (cs : List CuCall) (ls : List String) (e : String)
    (hef : entityFor cfg (jsToStringO listId) = some e)
    (hopt : strOptTruthy (cfg.entityOpt.lookup e) = none)
    (ha : (attachSourceListIds cfg).contains (jsToStringO listId) = true)
    (hdf : (cfg.dateFieldId != "") = true) :
    ("Missing option ID for entity: " ++ e) ∈ (actions cfg env taskId listId cs ls).logs ∧
    (∃ a d, (actions cfg env taskId listId cs ls).respBody =
      .summary taskId listId a d false none) ∧
    ((actions cfg env taskId listId cs ls).calls =
        cs ++ [attachCall cfg (jsToStringO taskId),
          setFieldCall (jsToStringO taskId) cfg.dateFieldId (toString env.now)] ∨
     (actions cfg env taskId listId cs ls).calls =
        cs ++ [attachCall cfg (jsToStringO taskId),
          setFieldCall (jsToStringO taskId) cfg.dateFieldId (toString env.now),
          setFieldCall (jsToStringO taskId) TASK_HOURS_ENG_FIELD_ID (jsonStr DEFAULT_HOURS_VALUE),
          setFieldCall (jsToStringO taskId) TASK_HOURS_DRFT_FIELD_ID (jsonStr DEFAULT_HOURS_VALUE)]) := by
  unfold actions
  simp only [ha, if_true, cuStep, htok, hef]
  unfold actions3B
  simp only [hdf, if_true, cuStep, htok]
  unfold actions3C
  dsimp only
  rw [hopt]
  refine ⟨actions3D_logs_mono (by simp), ⟨_, _, actions3D_respBody htok env _ taskId listId _ _ _ _ _ _⟩, ?_⟩
  unfold actions3D
  cases hb : ((cuResp env (attachCall cfg (jsToStringO taskId))).ok ||
      (cuResp env (attachCall cfg (jsToStringO taskId))).status == 409) <;>
    simp [cuStep, htok, actionsDone, hb]

/-! ## Claim C3 -/

/-- C3 counterexample: the Secunda list's option id IS configured, yet when
the remote entity-field call fails (all calls answer 500 here) the response
reports `entitySet = false` — the claim's unconditional `entitySet = true`
for configured option ids is false. -/
theorem C3_counterexample :
    (entityOptDefault.lookup "SASOL SECUNDA" =
      some "db79f2a8-c910-4b3b-9139-f253f95c0e33") ∧
    (handler (baseConfig (some "s") (some "t"))
      ⟨fun r => if r = "raw" then
          some (.obj [("event", .str "taskCreated"), ("task_id", .str "T1"),
                      ("list_id", .str "901205280473")]) else none,
        fun _ => ⟨500, ""⟩, 0⟩
      ⟨"POST", some (hmacSha256Hex "s" "raw"), "raw"⟩).respBody =
      .summary (some (.str "T1")) (some (.str "901205280473"))
        false false false (some "SASOL SECUNDA") :=
  ⟨rfl, by
    rw [handler_verified_eq _ _ "s" "raw"
          (.obj [("event", .str "taskCreated"), ("task_id", .str "T1"),
                 ("list_id", .str "901205280473")]) rfl (by simp)]
    rfl⟩

/-- C3 amended: for a verified `taskCreated` request whose payload list id is
a key of the entity mapping (entity named `e`, over an arbitrary option
table `eo`): when the option id is configured the entity-field call is
issued and `entitySet` reports exactly that call's success; when it is
missing the defect is logged, `entitySet` is false with no entity name, and
no entity-field call is issued — the calls are exactly attach, date stamp,
and (when attached) the two hours stamps. -/
theorem C3_entity_set_reports_call (eo : List (String × String)) (env : Env)
    (secret raw tok e : String) (body : JValue)
    (hp : env.jsonParse raw = some body)
    (hev : eqTaskCreated (extractEvent body) = true)
    (hti : truthyO (extractTaskId body) = true)
    (hli : truthyO (extractListId body) = true)
    (hmap : listToEntityDefault.lookup (jsToStringO (extractListId body)) = some e)
    (hene : (e == "") = false) :
    (∀ o, strOptTruthy (eo.lookup e) = some o →
      setFieldCall (jsToStringO (extractTaskId body))
          "af029e47-83b3-4172-9858-2402b111f5d6" (jsonStr o) ∈
        (handler { baseConfig (some secret) (some tok) with entityOpt := eo } env
          ⟨"POST", some (hmacSha256Hex secret raw), raw⟩).calls ∧
      ∃ a d, (handler { baseConfig (some secret) (some tok) with entityOpt := eo } env
          ⟨"POST", some (hmacSha256Hex secret raw), raw⟩).respBody =
        .summary (extractTaskId body) (extractListId body) a d
          (cuResp env (setFieldCall (jsToStringO (extractTaskId body))
            "af029e47-83b3-4172-9858-2402b111f5d6" (jsonStr o))).ok (some e)) ∧
    (strOptTruthy (eo.lookup e) = none →
      ("Missing option ID for entity: " ++ e) ∈
        (handler { baseConfig (some secret) (some tok) with entityOpt := eo } env
          ⟨"POST", some (hmacSha256Hex secret raw), raw⟩).logs ∧
      (∃ a d, (handler { baseConfig (some secret) (some tok) with entityOpt := eo } env
          ⟨"POST", some (hmacSha256Hex secret raw), raw⟩).respBody =
        .summary (extractTaskId body) (extractListId body) a d false none) ∧
      ((handler { baseConfig (some secret) (some tok) with entityOpt := eo } env
          ⟨"POST", some (hmacSha256Hex secret raw), raw⟩).calls =
        [attachCall { baseConfig (some secret) (some tok) with entityOpt := eo }
            (jsToStringO (extractTaskId body)),
         setFieldCall (jsToStringO (extractTaskId body))
           "5497bac6-d964-434e-af6e-706995976c07" (toString env.now)] ∨
       (handler { baseConfig (some secret) (some tok) with entityOpt := eo } env
          ⟨"POST", some (hmacSha256Hex secret raw), raw⟩).calls =
        [attachCall { baseConfig (some secret) (some tok) with entityOpt := eo }
            (jsToStringO (extractTaskId body)),
         setFieldCall (jsToStringO (extractTaskId body))
           "5497bac6-d964-434e-af6e-706995976c07" (toString env.now),
         setFieldCall (jsToStringO (extractTaskId body))
           TASK_HOURS_ENG_FIELD_ID (jsonStr DEFAULT_HOURS_VALUE),
         setFieldCall (jsToStringO (extractTaskId body))
           TASK_HOURS_DRFT_FIELD_ID (jsonStr DEFAULT_HOURS_VALUE)])) := by
  have hmap2 : ({ baseConfig (some secret) (some tok) with
      entityOpt := eo } : Config).listToEntity.lookup
        (jsToStringO (extractListId body)) = some e := hmap
  have hef : entityFor { baseConfig (some secret) (some tok) with entityOpt := eo }
      (jsToStringO (extractListId body)) = some e := by
    simp [entityFor, hmap2, strOptTruthy, hene]
  have ha := entity_keys_in_attach_set
    { baseConfig (some secret) (some tok) with entityOpt := eo }
    (jsToStringO (extractListId body)) (by rw [hmap2]; rfl)
  have hred : handler { baseConfig (some secret) (some tok) with entityOpt := eo } env
      ⟨"POST", some (hmacSha256Hex secret raw), raw⟩ =
      actions { baseConfig (some secret) (some tok) with entityOpt := eo } env
        (extractTaskId body) (extractListId body) [] [] := by
    rw [handler_verified_eq _ _ secret raw _ rfl hp,
        afterParse_with_listId _ _ _ hli,
        afterResolve_to_actions _ _ _ _ _ _ _ (by simp [filterSkips, baseConfig]) hev hti]
  constructor
  · intro o hopt
    rw [hred]
    exact actions_entity_configured rfl env _ _ _ _ e o hef hopt ha rfl
  · intro hopt
    rw [hred]
    exact actions_entity_missing rfl env _ _ _ _ e hef hopt ha rfl

/-- C3 witness: the Secunda list with the default option table and an
all-success transport issues the entity call and reports its success; with
an empty option table the defect is logged and no entity call appears. -/
theorem C3_witness :
    (setFieldCall "T1" "af029e47-83b3-4172-9858-2402b111f5d6"
        (jsonStr "db79f2a8-c910-4b3b-9139-f253f95c0e33") ∈
      (handler { baseConfig (some "s") (some "t") with entityOpt := entityOptDefault }
        ⟨fun r => if r = "raw" then
            some (.obj [("event", .str "taskCreated"), ("task_id", .str "T1"),
                        ("list_id", .str "901205280473")]) else none,
          fun _ => ⟨200, ""⟩, 0⟩
        ⟨"POST", some (hmacSha256Hex "s" "raw"), "raw"⟩).calls) ∧
    (("Missing option ID for entity: " ++ "SASOL SECUNDA") ∈
      (handler { baseConfig (some "s") (some "t") with entityOpt := [] }
        ⟨fun r => if r = "raw" then
            some (.obj [("event", .str "taskCreated"), ("task_id", .str "T1"),
                        ("list_id", .str "901205280473")]) else none,
          fun _ => ⟨200, ""⟩, 0⟩
        ⟨"POST", some (hmacSha256Hex "s" "raw"), "raw"⟩).logs) :=
  ⟨(C3_entity_set_reports_call entityOptDefault
      ⟨fun r => if r = "raw" then
          some (.obj [("event", .str "taskCreated"), ("task_id", .str "T1"),
                      ("list_id", .str "901205280473")]) else none,
        fun _ => ⟨200, ""⟩, 0⟩
      "s" "raw" "t" "SASOL SECUNDA" _ rfl rfl rfl rfl rfl rfl).1
      "db79f2a8-c910-4b3b-9139-f253f95c0e33" rfl |>.1,
   ((C3_entity_set_reports_call []
      ⟨fun r => if r = "raw" then
          some (.obj [("event", .str "taskCreated"), ("task_id", .str "T1"),
                      ("list_id", .str "901205280473")]) else none,
        fun _ => ⟨200, ""⟩, 0⟩
      "s" "raw" "t" "SASOL SECUNDA" _ rfl rfl rfl rfl rfl rfl).2 rfl).1⟩

/-! ## Claim C8 -/

/-- The per-action boolean keys carried by the `taskCreated` response JSON
(`{ ok, taskId, listId, attached, dateStamped, entitySet, entityName }`):
only attach, date-stamp and entity have a boolean there. -/
def respReportedActions : RespBody → List String
  | .summary _ _ _ _ _ _ => ["attached", "dateStamped", "entitySet"]
  | _ => []

/-- With the attach branch taken but the attach call failing (neither 2xx
nor 409), a configured date field and a configured entity option, the action
block still issues the date and entity calls and answers with all three
booleans: `attached = false`, the date call's success, the entity call's
success. -/
theorem actions_attach_failed {cfg : Config} {tok : String}
    (htok : cfg.token = some tok) (env : Env) (taskId listId : Option JValue)
    (cs : List CuCall) (ls : List String) (e o : String)
    (hef : entityFor cfg (jsToStringO listId) = some e)
    (hopt : strOptTruthy (cfg.entityOpt.lookup e) = some o)
    (ha : (attachSourceListIds cfg).contains (jsToStringO listId) = true)
    (hdf : (cfg.dateFieldId != "") = true)
    (hfalse : ((cuResp env (attachCall cfg (jsToStringO taskId))).ok ||
        (cuResp env (attachCall cfg (jsToStringO taskId))).status == 409) = false) :
    (actions cfg env taskId listId cs ls).calls =
      cs ++ [attachCall cfg (jsToStringO taskId),
        setFieldCall (jsToStringO taskId) cfg.dateFieldId (toString env.now),
        setFieldCall (jsToStringO taskId) cfg.entityFieldId (jsonStr o)] ∧
    (actions cfg env taskId listId cs ls).respBody =
      .summary taskId listId false
        (cuResp env (setFieldCall (jsToStringO taskId) cfg.dateFieldId (toString env.now))).ok
        (cuResp env (setFieldCall (jsToStringO taskId) cfg.entityFieldId (jsonStr o))).ok
        (some e) := by
  unfold actions
  simp only [ha, if_true, cuStep, htok, hef, hfalse]
  unfold actions3B
  simp only [hdf, if_true, cuStep, htok]
  unfold actions3C
  dsimp only
  rw [hopt]
  simp only [cuStep, htok]
  unfold actions3D
  refine ⟨?_, ?_⟩ <;> simp [actionsDone]

/-- C8 counterexample: on an all-success run the two Task-Hours calls are
attempted, yet the response body's per-action booleans are only attached,
dateStamped and entitySet — no boolean for the attempted hours actions. -/
theorem C8_counterexample :
    (setFieldCall "T1" TASK_HOURS_ENG_FIELD_ID (jsonStr DEFAULT_HOURS_VALUE) ∈
      (handler (baseConfig (some "s") (some "t"))
        ⟨fun r => if r = "raw" then
            some (.obj [("event", .str "taskCreated"), ("task_id", .str "T1"),
                        ("list_id", .str "901205280473")]) else none,
          fun _ => ⟨200, ""⟩, 0⟩
        ⟨"POST", some (hmacSha256Hex "s" "raw"), "raw"⟩).calls) ∧
    respReportedActions
      (handler (baseConfig (some "s") (some "t"))
        ⟨fun r => if r = "raw" then
            some (.obj [("event", .str "taskCreated"), ("task_id", .str "T1"),
                        ("list_id", .str "901205280473")]) else none,
          fun _ => ⟨200, ""⟩, 0⟩
        ⟨"POST", some (hmacSha256Hex "s" "raw"), "raw"⟩).respBody =
      ["attached", "dateStamped", "entitySet"] ∧
    "hoursSetEng" ∉ ["attached", "dateStamped", "entitySet"] := by
  rw [handler_verified_eq _ _ "s" "raw"
        (.obj [("event", .str "taskCreated"), ("task_id", .str "T1"),
               ("list_id", .str "901205280473")]) rfl (by simp)]
  refine ⟨by decide, by decide, by decide⟩

/-- C8 amended: remote actions are independent — an attach failure still
leaves the date stamp (with `Date.now()` as epoch milliseconds) and the
entity action attempted, and the response reports the booleans for attach,
date-stamp and entity regardless of the attach failure; the hours actions
(skipped here precisely because attach failed) report to the summary log
line only, never to the response body. -/
theorem C8_failure_isolation (env : Env) (secret raw tok e o : String) (body : JValue)
    (hp : env.jsonParse raw = some body)
    (hev : eqTaskCreated (extractEvent body) = true)
    (hti : truthyO (extractTaskId body) = true)
    (hli : truthyO (extractListId body) = true)
    (hmap : listToEntityDefault.lookup (jsToStringO (extractListId body)) = some e)
    (hene : (e == "") = false)
    (hopt : strOptTruthy (entityOptDefault.lookup e) = some o)
    (hfail : ¬(200 ≤ (env.oracle (attachCall (baseConfig (some secret) (some tok))
        (jsToStringO (extractTaskId body)))).status ∧
      (env.oracle (attachCall (baseConfig (some secret) (some tok))
        (jsToStringO (extractTaskId body)))).status ≤ 299))
    (h409 : (env.oracle (attachCall (baseConfig (some secret) (some tok))
        (jsToStringO (extractTaskId body)))).status ≠ 409) :
    (handler (baseConfig (some secret) (some tok)) env
        ⟨"POST", some (hmacSha256Hex secret raw), raw⟩).calls =
      [attachCall (baseConfig (some secret) (some tok)) (jsToStringO (extractTaskId body)),
       setFieldCall (jsToStringO (extractTaskId body))
         "5497bac6-d964-434e-af6e-706995976c07" (toString env.now),
       setFieldCall (jsToStringO (extractTaskId body))
         "af029e47-83b3-4172-9858-2402b111f5d6" (jsonStr o)] ∧
    (handler (baseConfig (some secret) (some tok)) env
        ⟨"POST", some (hmacSha256Hex secret raw), raw⟩).respBody =
      .summary (extractTaskId body) (extractListId body) false
        (cuResp env (setFieldCall (jsToStringO (extractTaskId body))
          "5497bac6-d964-434e-af6e-706995976c07" (toString env.now))).ok
        (cuResp env (setFieldCall (jsToStringO (extractTaskId body))
          "af029e47-83b3-4172-9858-2402b111f5d6" (jsonStr o))).ok
        (some e) := by
  have hmap2 : (baseConfig (some secret) (some tok)).listToEntity.lookup
      (jsToStringO (extractListId body)) = some e := hmap
  have hef : entityFor (baseConfig (some secret) (some tok))
      (jsToStringO (extractListId body)) = some e := by
    simp [entityFor, hmap2, strOptTruthy, hene]
  have ha := entity_keys_in_attach_set (baseConfig (some secret) (some tok))
    (jsToStringO (extractListId body)) (by rw [hmap2]; rfl)
  have hfalse : ((cuResp env (attachCall (baseConfig (some secret) (some tok))
      (jsToStringO (extractTaskId body)))).ok ||
      (cuResp env (attachCall (baseConfig (some secret) (some tok))
        (jsToStringO (extractTaskId body)))).status == 409) = false := by
    rw [cuResp_ok_false env _ hfail, cuResp_status]
    simp [h409]
  rw [handler_verified_eq _ _ secret raw _ rfl hp,
      afterParse_with_listId _ _ _ hli,
      afterResolve_to_actions _ _ _ _ _ _ _ (by simp [filterSkips, baseConfig]) hev hti]
  exact actions_attach_failed rfl env _ _ _ _ e o hef hopt ha rfl hfalse

/-- C8 witness: attach answered 500, date and entity answered 200 — both
still attempted, response booleans `false, true, true`. -/
theorem C8_witness :
    (handler (baseConfig (some "s") (some "t"))
        ⟨fun r => if r = "raw" then
            some (.obj [("event", .str "taskCreated"), ("task_id", .str "T1"),
                        ("list_id", .str "901205280473")]) else none,
          fun c => if c.path = "/list/901211501276/task/T1" then ⟨500, ""⟩ else ⟨200, ""⟩,
          7⟩
        ⟨"POST", some (hmacSha256Hex "s" "raw"), "raw"⟩).calls =
      [attachCall (baseConfig (some "s") (some "t")) "T1",
       setFieldCall "T1" "5497bac6-d964-434e-af6e-706995976c07" (toString (7 : Nat)),
       setFieldCall "T1" "af029e47-83b3-4172-9858-2402b111f5d6"
         (jsonStr "db79f2a8-c910-4b3b-9139-f253f95c0e33")] ∧
    (handler (baseConfig (some "s") (some "t"))
        ⟨fun r => if r = "raw" then
            some (.obj [("event", .str "taskCreated"), ("task_id", .str "T1"),
                        ("list_id", .str "901205280473")]) else none,
          fun c => if c.path = "/list/901211501276/task/T1" then ⟨500, ""⟩ else ⟨200, ""⟩,
          7⟩
        ⟨"POST", some (hmacSha256Hex "s" "raw"), "raw"⟩).respBody =
      .summary (extractTaskId (.obj [("event", .str "taskCreated"),
          ("task_id", .str "T1"), ("list_id", .str "901205280473")]))
        (extractListId (.obj [("event", .str "taskCreated"),
          ("task_id", .str "T1"), ("list_id", .str "901205280473")]))
        false
        (cuResp ⟨fun r => if r = "raw" then
            some (.obj [("event", .str "taskCreated"), ("task_id", .str "T1"),
                        ("list_id", .str "901205280473")]) else none,
          fun c => if c.path = "/list/901211501276/task/T1" then ⟨500, ""⟩ else ⟨200, ""⟩,
          7⟩ (setFieldCall "T1" "5497bac6-d964-434e-af6e-706995976c07" (toString (7 : Nat)))).ok
        (cuResp ⟨fun r => if r = "raw" then
            some (.obj [("event", .str "taskCreated"), ("task_id", .str "T1"),
                        ("list_id", .str "901205280473")]) else none,
          fun c => if c.path = "/list/901211501276/task/T1" then ⟨500, ""⟩ else ⟨200, ""⟩,
          7⟩ (setFieldCall "T1" "af029e47-83b3-4172-9858-2402b111f5d6"
            (jsonStr "db79f2a8-c910-4b3b-9139-f253f95c0e33"))).ok
        (some "SASOL SECUNDA") :=
  C8_failure_isolation
    ⟨fun r => if r = "raw" then
        some (.obj [("event", .str "taskCreated"), ("task_id", .str "T1"),
                    ("list_id", .str "901205280473")]) else none,
      fun c => if c.path = "/list/901211501276/task/T1" then ⟨500, ""⟩ else ⟨200, ""⟩,
      7⟩
    "s" "raw" "t" "SASOL SECUNDA" "db79f2a8-c910-4b3b-9139-f253f95c0e33"
    (.obj [("event", .str "taskCreated"), ("task_id", .str "T1"),
           ("list_id", .str "901205280473")])
    rfl rfl rfl rfl rfl rfl rfl (by decide) (by decide)

/-! ## Claim C10: inversion machinery -/

theorem actions3C_calls_mono {cfg : Config} {env : Env} {tid : String}
    {taskId listId : Option JValue} {ef : Option String} {a d : Bool}
    {cs : List CuCall} {ls : List String} {c : CuCall} (hc : c ∈ cs) :
    c ∈ (actions3C cfg env tid taskId listId ef a d cs ls).calls := by
  unfold actions3C
  split
  · split
    · cases htok : cfg.token
      · simp [cuStep, htok, hc]
      · simp only [cuStep, htok]
        exact actions3D_calls_mono (by simp [hc])
    · exact actions3D_calls_mono hc
  · exact actions3D_calls_mono hc

theorem actions3B_calls_mono {cfg : Config} {env : Env} {tid : String}
    {taskId listId : Option JValue} {ef : Option String} {a : Bool}
    {cs : List CuCall} {ls : List String} {c : CuCall} (hc : c ∈ cs) :
    c ∈ (actions3B cfg env tid taskId listId ef a cs ls).calls := by
  unfold actions3B
  split
  · cases htok : cfg.token
    · simp [cuStep, htok, hc]
    · simp only [cuStep, htok]
      exact actions3C_calls_mono (by simp [hc])
  · exact actions3C_calls_mono hc

theorem actions3D_shape (cfg : Config) (env : Env) (tid : String)
    (taskId listId : Option JValue) (a d e : Bool) (n : Option String)
    (cs : List CuCall) (ls : List String) :
    (actions3D cfg env tid taskId listId a d e n cs ls).respBody =
        .summary taskId listId a d e n ∨
    ∃ m, (actions3D cfg env tid taskId listId a d e n cs ls).respBody = .err m := by
  unfold actions3D
  cases htok : cfg.token <;> cases a <;> simp [cuStep, htok, actionsDone]

/-- With no entity mapping for the list, the action block can only answer a
summary with `entitySet = false` and no entity name — or a thrown-token
500. -/
theorem actions3B_ef_none_shape (cfg : Config) (env : Env) (tid : String)
    (taskId listId : Option JValue) (a : Bool) (cs : List CuCall) (ls : List String) :
    (∃ d, (actions3B cfg env tid taskId listId none a cs ls).respBody =
        .summary taskId listId a d false none) ∨
    ∃ m, (actions3B cfg env tid taskId listId none a cs ls).respBody = .err m := by
  unfold actions3B
  split
  · cases htok : cfg.token
    · right
      exact ⟨"Missing CLICKUP_TOKEN", by simp [cuStep, htok]⟩
    · simp only [cuStep, htok]
      unfold actions3C
      dsimp only
      rcases actions3D_shape cfg env tid taskId listId a _ false none _ _ with h | h
      · exact Or.inl ⟨_, h⟩
      · exact Or.inr h
  · unfold actions3C
    dsimp only
    rcases actions3D_shape cfg env tid taskId listId a false false none _ _ with h | h
    · exact Or.inl ⟨_, h⟩
    · exact Or.inr h

/-- If the action block's response carries `entitySet = true`, the attach
call was issued on that request. -/
theorem actions_entitySet_attach {cfg : Config} {env : Env}
    {taskId listId : Option JValue} {cs : List CuCall} {ls : List String}
    {tid2 lid2 : Option JValue} {a d : Bool} {n : Option String}
    (h : (actions cfg env taskId listId cs ls).respBody = .summary tid2 lid2 a d true n) :
    attachCall cfg (jsToStringO taskId) ∈ (actions cfg env taskId listId cs ls).calls := by
  unfold actions at h ⊢
  cases hc : (attachSourceListIds cfg).contains (jsToStringO listId) with
  | true =>
    simp only [hc, if_true] at h ⊢
    cases htok : cfg.token with
    | none => simp [cuStep, htok] at h
    | some t =>
      simp only [cuStep, htok] at h ⊢
      exact actions3B_calls_mono (by simp)
  | false =>
    simp only [hc, Bool.false_eq_true, if_false] at h ⊢
    have hef : entityFor cfg (jsToStringO listId) = none := by
      cases hl : cfg.listToEntity.lookup (jsToStringO listId) with
      | some e =>
        have h2 := entity_keys_in_attach_set cfg (jsToStringO listId) (by rw [hl]; rfl)
        rw [hc] at h2
        simp at h2
      | none => simp [entityFor, hl, strOptTruthy]
    rw [hef] at h
    rcases actions3B_ef_none_shape cfg env (jsToStringO taskId) taskId listId false cs ls
      with ⟨d2, h2⟩ | ⟨m, h2⟩ <;> rw [h2] at h <;> simp at h

theorem afterResolve_entitySet_attach {cfg : Config} {env : Env}
    {event taskId listId : Option JValue} {cs : List CuCall} {ls : List String}
    {tid2 lid2 : Option JValue} {a d : Bool} {n : Option String}
    (h : (afterResolve cfg env event taskId listId cs ls).respBody =
      .summary tid2 lid2 a d true n) :
    attachCall cfg (jsToStringO taskId) ∈
      (afterResolve cfg env event taskId listId cs ls).calls := by
  unfold afterResolve at h ⊢
  cases hf : filterSkips cfg listId with
  | true => simp [hf] at h
  | false =>
    simp only [hf, Bool.false_eq_true, if_false] at h ⊢
    cases hg : (eqTaskCreated event && truthyO taskId) with
    | false => simp [hg] at h
    | true =>
      simp only [hg, if_true] at h ⊢
      exact actions_entitySet_attach h

theorem handler_cases (cfg : Config) (env : Env) (req : Request) :
    (∃ st m, handler cfg env req = ⟨st, .err m, [], []⟩) ∨
    (∃ body, handler cfg env req = afterParse cfg env body) := by
  unfold handler
  split
  · exact Or.inl ⟨_, _, rfl⟩
  · split
    · exact Or.inl ⟨_, _, rfl⟩
    · split
      · exact Or.inl ⟨_, _, rfl⟩
      · split
        · exact Or.inl ⟨_, _, rfl⟩
        · exact Or.inr ⟨_, rfl⟩

theorem afterParse_cases (cfg : Config) (env : Env) (body : JValue) :
    (∃ m, afterParse cfg env body = ⟨500, .err m, [], []⟩) ∨
    (∃ listId cs, afterParse cfg env body =
      afterResolve cfg env (extractEvent body) (extractTaskId body) listId cs []) := by
  unfold afterParse
  split
  · cases htok : cfg.token
    · exact Or.inl ⟨"Missing CLICKUP_TOKEN", by simp [cuStep, htok]⟩
    · exact Or.inr ⟨resolvedListId env (jsToStringO (extractTaskId body)),
        [taskLookupCall (jsToStringO (extractTaskId body))], by simp [cuStep, htok]⟩
  · exact Or.inr ⟨extractListId body, [], rfl⟩

/-- C10: the attach allow-set is built from the entity mapping's keys plus
one extra list, so any list with an entity mapping is attach-allowed; and at
the level of whole requests, any response reporting `entitySet = true`
implies the attach-to-tracker-list call was issued on that request. -/
theorem C10_entitySet_implies_attach :
    (∀ (cfg : Config) (l : String), (cfg.listToEntity.lookup l).isSome →
      (attachSourceListIds cfg).contains l = true) ∧
    (∀ (cfg : Config) (env : Env) (req : Request) (tid2 lid2 : Option JValue)
      (a d : Bool) (n : Option String),
      (handler cfg env req).respBody = .summary tid2 lid2 a d true n →
      ∃ t, attachCall cfg t ∈ (handler cfg env req).calls) := by
  constructor
  · exact entity_keys_in_attach_set
  · intro cfg env req tid2 lid2 a d n h
    rcases handler_cases cfg env req with ⟨st, m, he⟩ | ⟨body, hb⟩
    · rw [he] at h
      simp at h
    · rw [hb] at h ⊢
      rcases afterParse_cases cfg env body with ⟨m, he⟩ | ⟨listId, cs, he⟩
      · rw [he] at h
        simp at h
      · rw [he] at h ⊢
        exact ⟨_, afterResolve_entitySet_attach h⟩

/-- C10 witness: the Secunda run's response has `entitySet = true` and its
call list indeed contains the attach call. -/
theorem C10_witness :
    ∃ t, attachCall (baseConfig (some "s") (some "t")) t ∈
      (handler (baseConfig (some "s") (some "t"))
        ⟨fun r => if r = "raw" then
            some (.obj [("event", .str "taskCreated"), ("task_id", .str "T1"),
                        ("list_id", .str "901205280473")]) else none,
          fun _ => ⟨200, ""⟩, 0⟩
        ⟨"POST", some (hmacSha256Hex "s" "raw"), "raw"⟩).calls :=
  C10_entitySet_implies_attach.2 (baseConfig (some "s") (some "t"))
    ⟨fun r => if r = "raw" then
        some (.obj [("event", .str "taskCreated"), ("task_id", .str "T1"),
                    ("list_id", .str "901205280473")]) else none,
      fun _ => ⟨200, ""⟩, 0⟩
    ⟨"POST", some (hmacSha256Hex "s" "raw"), "raw"⟩
    (some (.str "T1")) (some (.str "901205280473")) true true (some "SASOL SECUNDA")
    (by
      rw [handler_verified_eq _ _ "s" "raw"
            (.obj [("event", .str "taskCreated"), ("task_id", .str "T1"),
                   ("list_id", .str "901205280473")]) rfl (by simp)]
      rfl)

end ClickupWebhook
